import Mathlib

/-!
Shallow embedding of `src/src-tauri/src/main.rs`: a minimal Tauri shell that
registers one command, `open_devtools`, which looks up the webview window
labelled "main" and asks it to open its inspector, discarding the result.
-/

namespace DevtoolsShell

/-- A handle to a rendered webview surface, identified by its label
(`tauri::WebviewWindow`). -/
structure WebviewWindow where
  label : String
deriving DecidableEq, Repr

/-- The implicit `window : tauri::Window` parameter that the framework binds
to each command invocation. -/
structure Window where
  label : String
deriving DecidableEq, Repr

/-- The process-wide application state reachable through the `Manager`
trait: the registry of live webview windows. -/
structure AppState where
  webviewWindows : List WebviewWindow
deriving DecidableEq, Repr

/-- Lookup of `Manager::get_webview_window`: find a webview window by label
in the process-wide registry. The receiving `Window` only provides access to
the registry; the lookup is purely by label. -/
def get_webview_window (st : AppState) (label : String) : Option WebviewWindow :=
  st.webviewWindows.find? (fun w => w.label == label)

/-- Observable side effects a handler invocation can perform: an
inspector-open request on a labelled surface, or a write to the diagnostic
(stderr) stream. -/
inductive Effect where
  | inspectorOpenRequest (target : String)
  | diagnosticWrite (msg : String)
deriving DecidableEq, Repr

/-- Whether an effect is a write to the diagnostic stream. -/
def Effect.isDiagnostic : Effect → Bool
  | .diagnosticWrite _ => true
  | _ => false

/-- Whether an effect is an inspector-open request. -/
def Effect.isInspectorOpen : Effect → Bool
  | .inspectorOpenRequest _ => true
  | _ => false

/-- Outcome of the native inspector-open call on a given surface, decided by
the platform environment: success or a failure description. -/
def OpenEnv : Type := String → Except String Unit

/-- The `open_devtools` command handler (src/src-tauri/src/main.rs lines
5-11): look up the webview window labelled "main" through the manager; if it
is found, issue the inspector-open request and discard its result
(`let _ = webview.open_devtools();`); otherwise do nothing. Returns the unit
value, the application state after the call, and the effects performed. -/
def open_devtools (env : OpenEnv) (st : AppState) (window : Window) :
    Unit × AppState × List Effect :=
  match get_webview_window st "main" with
  | some webview =>
      let openResult : Except String Unit := env webview.label
      let _ := openResult
      ((), st, [Effect.inspectorOpenRequest webview.label])
  | none => ((), st, [])

/-- Description of one registered command: its name, the number of
caller-supplied arguments, and whether it returns a payload. -/
structure CommandSpec where
  name : String
  explicitArgs : Nat
  hasReturnPayload : Bool
deriving DecidableEq, Repr

/-- The handler list produced by `tauri::generate_handler![open_devtools]`:
the one command, taking no caller-supplied arguments (its only parameter is
the framework-bound window) and returning no payload. -/
def generated_handler : List CommandSpec :=
  [⟨"open_devtools", 0, false⟩]

/-- The application builder: the only piece of its configuration that this
program touches is the list of registered command handlers. -/
structure Builder where
  handlers : List CommandSpec
deriving DecidableEq, Repr

/-- The default builder, with no handlers registered. -/
def Builder.default : Builder := ⟨[]⟩

/-- Registration step `.invoke_handler(...)`: append the generated handlers
to the builder. -/
def Builder.invoke_handler (b : Builder) (hs : List CommandSpec) : Builder :=
  ⟨b.handlers ++ hs⟩

/-- The builder constructed in `main` before the application runs. -/
def main_builder : Builder :=
  Builder.default.invoke_handler generated_handler

/-- How the process ends: a normal exit, or an abort via panic with a
message. -/
inductive ProcessOutcome where
  | normalExit
  | panicAbort (msg : String)
deriving DecidableEq, Repr

/-- The message passed to `.expect(...)` in `main`. -/
def expectMessage : String := "error while running tauri application"

/-- The run step of `main`: `.run(ctx).expect("error while running tauri
application")`. A failure of the builder/run sequence aborts the process by
panic with the descriptive message followed by the error detail; a
successful run ends in a normal exit. -/
def main_run (runResult : Except String Unit) : ProcessOutcome :=
  match runResult with
  | .ok () => .normalExit
  | .error e => .panicAbort (expectMessage ++ ": " ++ e)

/-- The primitive operations an invocation of the handler body can execute.
The last three (awaiting a future, waiting on I/O, waiting on a lock) are
the ways an asynchronous body could block; the source body contains none of
them. -/
inductive PrimOp where
  | namedLookup (label : String)
  | inspectorOpenCall
  | discardResult
  | awaitFuture
  | ioWait
  | syncWait
deriving DecidableEq, Repr

/-- Whether a primitive operation can block or yield control. -/
def PrimOp.isBlocking : PrimOp → Bool
  | .awaitFuture => true
  | .ioWait => true
  | .syncWait => true
  | _ => false

/-- The primitive operations executed, in order, by the body of
`open_devtools` in a given application state: the named lookup, then, when
the lookup succeeds, the inspector-open call and the discarding of its
result. -/
def open_devtools_body_ops (st : AppState) : List PrimOp :=
  match get_webview_window st "main" with
  | some _ => [.namedLookup "main", .inspectorOpenCall, .discardResult]
  | none => [.namedLookup "main"]

/-- Sequential execution of a batch of handler invocations, each receiving
the application state left by the previous one, as a dispatch loop would;
returns the final state together with each invocation's return value and
effects. -/
def run_invocations (env : OpenEnv) : AppState → List Window →
    AppState × List (Unit × List Effect)
  | st, [] => (st, [])
  | st, w :: ws =>
      let r := open_devtools env st w
      let rest := run_invocations env r.2.1 ws
      (rest.1, (r.1, r.2.2) :: rest.2)

/-- Concrete test fixtures: a live "main" webview, a registry containing it,
an empty registry, a calling window, and environments in which the
inspector-open call always succeeds or always fails. -/
def mainWebview : WebviewWindow := ⟨"main"⟩

/-- Registry holding only the "main" webview window. -/
def stWithMain : AppState := ⟨[mainWebview]⟩

/-- Registry holding no windows at all. -/
def stEmpty : AppState := ⟨[]⟩

/-- A calling window for concrete invocations. -/
def caller : Window := ⟨"main"⟩

/-- Environment in which every inspector-open call succeeds. -/
def envOk : OpenEnv := fun _ => .ok ()

/-- Environment in which every inspector-open call fails. -/
def envFail : OpenEnv := fun _ => .error "inspector unavailable"

/-- Helper: the handler returns the application state unchanged. -/
theorem open_devtools_preserves_state (env : OpenEnv) (st : AppState) (w : Window) :
    (open_devtools env st w).2.1 = st := by
  unfold open_devtools
  cases get_webview_window st "main" <;> rfl

/-- Claim C1: whenever a webview window labelled "main" exists, an
invocation of `open_devtools` issues exactly one inspector-open request and
completes with the unit value as its only return. -/
theorem C1_exactly_one_request (env : OpenEnv) (st : AppState) (w : Window)
    (wv : WebviewWindow) (h : get_webview_window st "main" = some wv) :
    (open_devtools env st w).1 = () ∧
      (open_devtools env st w).2.2.countP (fun e => e.isInspectorOpen) = 1 := by
  unfold open_devtools
  rw [h]
  simp [Effect.isInspectorOpen]

/-- Witness for C1 at a concrete registry holding the "main" window. -/
theorem C1_exactly_one_request_witness :
    (open_devtools envOk stWithMain caller).1 = () ∧
      (open_devtools envOk stWithMain caller).2.2.countP
        (fun e => e.isInspectorOpen) = 1 :=
  C1_exactly_one_request envOk stWithMain caller mainWebview (by decide)

/-- Claim C2: when the named lookup of "main" succeeds, the handler's whole
observable behaviour is independent of whether the inspector-open call
succeeds or fails, it returns the unit value, and it writes nothing to the
diagnostic stream. -/
theorem C2_failure_silently_discarded (env env' : OpenEnv) (st : AppState)
    (w : Window) (wv : WebviewWindow)
    (h : get_webview_window st "main" = some wv) :
    open_devtools env st w = open_devtools env' st w ∧
      (open_devtools env st w).1 = () ∧
      (open_devtools env st w).2.2.all (fun e => !e.isDiagnostic) = true := by
  unfold open_devtools
  rw [h]
  simp [Effect.isDiagnostic]

/-- Witness for C2: a succeeding and a failing environment give identical
behaviour on the concrete registry holding the "main" window. -/
theorem C2_failure_silently_discarded_witness :
    open_devtools envOk stWithMain caller = open_devtools envFail stWithMain caller ∧
      (open_devtools envOk stWithMain caller).1 = () ∧
      (open_devtools envOk stWithMain caller).2.2.all
        (fun e => !e.isDiagnostic) = true :=
  C2_failure_silently_discarded envOk envFail stWithMain caller mainWebview (by decide)

/-- Claim C3: when no webview window named "main" exists, the handler
performs no effect at all, leaves the state unchanged and completes normally
with the unit value. -/
theorem C3_no_main_no_effect (env : OpenEnv) (st : AppState) (w : Window)
    (h : get_webview_window st "main" = none) :
    open_devtools env st w = ((), st, []) := by
  unfold open_devtools
  rw [h]

/-- Witness for C3 at the concrete empty registry. -/
theorem C3_no_main_no_effect_witness :
    open_devtools envOk stEmpty caller = ((), stEmpty, []) :=
  C3_no_main_no_effect envOk stEmpty caller (by decide)

/-- Claim C4 counterexample: with a live "main" window and an environment in
which the inspector-open call fails, the handler in the source writes
nothing to the diagnostic stream, so the source contains no variant that
logs the failure with its error detail. -/
theorem C4_counterexample_no_diagnostic_on_failure :
    (open_devtools envFail stWithMain caller).2.2.any Effect.isDiagnostic = false := by
  decide

/-- Claim C4 (amended): the source contains a single handler variant, the
named-lookup one; whatever the outcome of the inspector-open call, it writes
nothing to the diagnostic stream and propagates nothing to the caller. -/
theorem C4_only_silent_variant (env : OpenEnv) (st : AppState) (w : Window) :
    (open_devtools env st w).2.2.all (fun e => !e.isDiagnostic) = true ∧
      (open_devtools env st w).1 = () := by
  unfold open_devtools
  cases get_webview_window st "main" <;> simp [Effect.isDiagnostic]

/-- Claim C5: `main` registers exactly the generated `open_devtools` handler
with the default builder and runs the application; a failing run aborts the
process by panic with the descriptive message, a successful run exits
normally, every panic outcome originates from a failing run, and the
handler itself always completes normally, so startup failure is the only
fatal condition. -/
theorem C5_startup_only_fatal (r : Except String Unit) :
    main_builder.handlers = generated_handler ∧
      main_run (Except.ok ()) = ProcessOutcome.normalExit ∧
      (∀ e, main_run (Except.error e) =
        ProcessOutcome.panicAbort (expectMessage ++ ": " ++ e)) ∧
      (∀ m, main_run r = ProcessOutcome.panicAbort m →
        ∃ e, r = Except.error e ∧ m = expectMessage ++ ": " ++ e) ∧
      (∀ env st w, (open_devtools env st w).1 = ()) := by
  refine ⟨rfl, rfl, fun e => rfl, ?_, fun env st w => ?_⟩
  · intro m hm
    cases r with
    | ok u => cases u; exact absurd hm (by simp [main_run])
    | error e => exact ⟨e, rfl, by simpa [main_run] using hm.symm⟩
  · unfold open_devtools
    cases get_webview_window st "main" <;> rfl

/-- Claim C6: no invocation of the handler mutates any application state:
the registry comes back unchanged and the only effects are inspector-open
display requests. -/
theorem C6_no_mutation (env : OpenEnv) (st : AppState) (w : Window) :
    (open_devtools env st w).2.1 = st ∧
      (open_devtools env st w).2.2.all (fun e => e.isInspectorOpen) = true := by
  refine ⟨open_devtools_preserves_state env st w, ?_⟩
  unfold open_devtools
  cases get_webview_window st "main" <;> simp [Effect.isInspectorOpen]

/-- Claim C7: exactly one command is registered with the builder, under the
fixed name `open_devtools`, taking no caller-supplied arguments and
returning no payload. -/
theorem C7_single_registered_command :
    main_builder.handlers.length = 1 ∧
      main_builder.handlers = [⟨"open_devtools", 0, false⟩] := by
  exact ⟨rfl, rfl⟩

/-- Claim C8: the body of `open_devtools` contains no suspension point, no
I/O wait and no synchronisation, and consists of at most three primitive
operations, so every invocation runs to completion with the unit value. -/
theorem C8_terminates_without_blocking (env : OpenEnv) (st : AppState) (w : Window) :
    (open_devtools_body_ops st).all (fun op => !op.isBlocking) = true ∧
      (open_devtools_body_ops st).length ≤ 3 ∧
      (open_devtools env st w).1 = () := by
  unfold open_devtools_body_ops open_devtools
  cases get_webview_window st "main" <;> simp [PrimOp.isBlocking]

/-- Claim C9: the inspector-open request always targets the window named
"main": the behaviour is the same whichever window issued the command, and
every request effect emitted has target "main". -/
theorem C9_target_always_main (env : OpenEnv) (st : AppState) (w w' : Window) :
    open_devtools env st w = open_devtools env st w' ∧
      ∀ t, Effect.inspectorOpenRequest t ∈ (open_devtools env st w).2.2 →
        t = "main" := by
  unfold open_devtools
  cases h : get_webview_window st "main" with
  | none => exact ⟨rfl, fun t ht => absurd ht (by simp)⟩
  | some wv =>
      refine ⟨rfl, fun t ht => ?_⟩
      unfold get_webview_window at h
      have hlabel := List.find?_some h
      have ht' : t = wv.label := by
        simpa using ht
      rw [ht']
      exact eq_of_beq hlabel

/-- Claim C10: a batch of invocations dispatched sequentially leaves the
application state unchanged and gives every invocation exactly the return
value and effects it would produce running alone: the invocations are
independent and none is blocked or rejected by another. -/
theorem C10_invocations_independent (env : OpenEnv) (st : AppState)
    (ws : List Window) :
    run_invocations env st ws =
      (st, ws.map (fun w =>
        ((open_devtools env st w).1, (open_devtools env st w).2.2))) := by
  induction ws with
  | nil => rfl
  | cons w ws ih =>
      simp only [run_invocations, open_devtools_preserves_state, ih, List.map_cons]

end DevtoolsShell
